import Mathlib

/-!
Shallow embedding of the command handlers in
src/openstackclient/network/v2/network.py and
src/openstackclient/volume/v2/backup.py, together with proofs about the
behaviour of those handlers.  Python dictionaries are embedded as
association lists with distinct keys, stateful client calls are embedded
as explicit environment records, and exceptions as Except values.
-/

namespace OSC

/-- Python values as they appear in request bodies and resource records:
strings, booleans, None, and lists of strings (the subnets field). -/
inductive Value where
  | str (s : String)
  | bool (b : Bool)
  | null
  | strlist (xs : List String)
deriving DecidableEq, Repr

/-- Errors a handler can raise: a CommandError with its message
(osc_lib / openstackclient exceptions.CommandError), a NotFound raised by
the external resolver, a KeyError from a dictionary lookup, and any other
exception coming out of a client call. -/
inductive PyErr where
  | commandError (msg : String)
  | notFound
  | keyError
  | clientError
deriving DecidableEq, Repr

/-- Dictionary lookup on an association list (python d[k] / k in d). -/
def alookup {α : Type} (k : String) : List (String × α) → Option α
  | [] => none
  | p :: rest => if p.1 = k then some p.2 else alookup k rest

/-- Dictionary pop of a key (python d.pop(k, None)): drop the entry. -/
def aerase {α : Type} (k : String) : List (String × α) → List (String × α)
  | [] => []
  | p :: rest => if p.1 = k then rest else p :: aerase k rest

/-- Dictionary assignment d[k] = v: replace in place, else append. -/
def aset {α : Type} (k : String) (v : α) : List (String × α) → List (String × α)
  | [] => [(k, v)]
  | p :: rest => if p.1 = k then (k, v) :: rest else p :: aset k v rest

/-- Lexicographic comparison of character lists, as python compares
strings code point by code point. -/
def charListLeb : List Char → List Char → Bool
  | [], _ => true
  | _ :: _, [] => false
  | c :: cs, d :: ds =>
    if c < d then true else if d < c then false else charListLeb cs ds

/-- Python string comparison: lexicographic on the code points. -/
def strLeb (s t : String) : Bool :=
  charListLeb s.data t.data

/-- Insertion step of sorting a list of strings. -/
def insertStr (s : String) : List String → List String
  | [] => [s]
  | t :: rest => if strLeb s t then s :: t :: rest else t :: insertStr s rest

/-- Python sorted() on a list of strings. -/
def sortStrs : List String → List String
  | [] => []
  | s :: rest => insertStr s (sortStrs rest)

/-- Insertion step of sorting key/value pairs by key. -/
def insertPair (p : String × Value) : List (String × Value) → List (String × Value)
  | [] => [p]
  | q :: rest => if strLeb p.1 q.1 then p :: q :: rest else q :: insertPair p rest

/-- Python sorted(d.items()): key/value pairs ordered by key (keys are
distinct, so comparing the first components decides the order). -/
def sortPairs : List (String × Value) → List (String × Value)
  | [] => []
  | p :: rest => insertPair p (sortPairs rest)

/-- Python zip(*pairs) over a list of (key, value) pairs: the tuple of
keys and the tuple of values. -/
def zipStar (ps : List (String × Value)) : List String × List Value :=
  (ps.map Prod.fst, ps.map Prod.snd)

/-- Python truthiness of an optional string flag: None and the empty
string are falsy. -/
def truthyStr : Option String → Bool
  | none => false
  | some s => !(s == "")

/-- Modelled from the spec: the external collaborator format_list
(section 6: format_list(list) -> string), which flattens a list-of-strings
field into a delimited display string; its exact rendering is not
observable in any claim, only that the field becomes a single string. -/
def format_list (xs : List String) : String :=
  String.intercalate ", " (sortStrs xs)

/-- network.py filters: if the record has a subnets key, replace its
list value with the formatted display string. -/
def filters (data : List (String × Value)) : List (String × Value) :=
  match alookup "subnets" data with
  | some (Value.strlist xs) => aset "subnets" (Value.str (format_list xs)) data
  | _ => data

/-- One resolve or delete attempt performed by a delete command, recorded
in the order the calls are issued. -/
inductive Ev where
  | resolveAttempt (ident : String)
  | deleteAttempt (rid : String)
deriving DecidableEq, Repr

/-- Recognizer for resolution attempts in an event trace. -/
def isResolveEv : Ev → Bool
  | Ev.resolveAttempt _ => true
  | _ => false

/-- The network client together with the name-or-ID resolver, as the
network commands see them.  The find field is modelled from the spec
(section 4.2): the external resolver returns the canonical ID, or fails
with NotFound (None here) when there is no unique match; the client
methods mirror client.create_network, client.delete_network,
client.update_network, client.show_network, client.list_networks and
client.list_networks_on_dhcp_agent, each returning its JSON response
(booleans stand for success of calls whose result is discarded). -/
structure NetworkClient where
  find : String → Option String
  create_network : String × List (String × Value) → List (String × List (String × Value))
  delete_network : String → Bool
  update_network : String → String × List (String × Value) → Bool
  show_network : String → List (String × List (String × Value))
  list_networks : List (String × Value) → List (String × List (List (String × Value)))
  list_networks_on_dhcp_agent : String → List (String × List (List (String × Value)))

/-- Parsed arguments of CreateNetwork: name is positional, admin_state
comes from the --enable / --disable pair (store_true with default True),
shared from the --share / --no-share pair (default None). -/
structure CreateNetworkArgs where
  name : String
  admin_state : Bool
  shared : Option Bool
deriving DecidableEq, Repr

/-- CreateNetwork.get_body (network.py lines 88-93): name and
admin_state_up always, shared only when the flag pair was used. -/
def CreateNetwork.get_body (a : CreateNetworkArgs) : String × List (String × Value) :=
  let body := [("name", Value.str a.name), ("admin_state_up", Value.bool a.admin_state)]
  let body := match a.shared with
    | some b => body ++ [("shared", Value.bool b)]
    | none => body
  ("network", body)

/-- CreateNetwork.take_action (network.py lines 76-86): build the body,
call create_network, index the response with the network key (KeyError
when absent), replace a falsy record by the single empty pair, apply
filters otherwise, and return the sorted items as (keys, values). -/
def CreateNetwork.take_action (env : NetworkClient) (a : CreateNetworkArgs) :
    Except PyErr (List String × List Value) :=
  let body := CreateNetwork.get_body a
  match alookup "network" (env.create_network body) with
  | none => Except.error PyErr.keyError
  | some data =>
    let data := if data ≠ [] then filters data else [("", Value.str "")]
    Except.ok (zipStar (sortPairs data))

/-- DeleteNetwork.take_action (network.py lines 111-118) as a recursion
over the identifiers: resolve then delete each one; there is no exception
handling, so the first failing resolution (NotFound) or failing delete
call (client exception) aborts the loop and propagates.  The first
component is the trace of attempts actually performed. -/
def DeleteNetwork.take_action (env : NetworkClient) :
    List String → List Ev × Except PyErr Unit
  | [] => ([], Except.ok ())
  | n :: rest =>
    match env.find n with
    | none => ([Ev.resolveAttempt n], Except.error PyErr.notFound)
    | some nid =>
      if env.delete_network nid then
        let r := DeleteNetwork.take_action env rest
        (Ev.resolveAttempt n :: Ev.deleteAttempt nid :: r.1, r.2)
      else
        ([Ev.resolveAttempt n, Ev.deleteAttempt nid], Except.error PyErr.clientError)

/-- Whether one DeleteNetwork item goes through: its resolution succeeds
and the delete call succeeds. -/
def netItemOk (env : NetworkClient) (n : String) : Bool :=
  match env.find n with
  | none => false
  | some nid => env.delete_network nid

/-- The attempts DeleteNetwork performs for one item: the resolution,
then the delete call when resolution succeeded. -/
def netItemEvents (env : NetworkClient) (n : String) : List Ev :=
  match env.find n with
  | none => [Ev.resolveAttempt n]
  | some nid => [Ev.resolveAttempt n, Ev.deleteAttempt nid]

/-- Parsed arguments of SetNetwork: the positional identifier and the
three optional fields, each None when the flag was not given. -/
structure SetNetworkArgs where
  identifier : String
  name : Option String
  admin_state : Option Bool
  shared : Option Bool
deriving DecidableEq, Repr

/-- The partial body SetNetwork builds (network.py lines 224-230): one
key per explicitly provided field, in source order. -/
def SetNetwork.body (a : SetNetworkArgs) : List (String × Value) :=
  let body : List (String × Value) := []
  let body := match a.name with
    | some n => body ++ [("name", Value.str n)]
    | none => body
  let body := match a.admin_state with
    | some b => body ++ [("admin_state_up", Value.bool b)]
    | none => body
  let body := match a.shared with
    | some b => body ++ [("shared", Value.bool b)]
    | none => body
  body

/-- SetNetwork.take_action (network.py lines 219-236): resolve the
identifier first (NotFound propagates), build the partial body, raise
CommandError when it is empty, otherwise issue exactly one update call
with the wrapped body.  The first component lists the update calls
issued, as (id, wrapped body) pairs. -/
def SetNetwork.take_action (env : NetworkClient) (a : SetNetworkArgs) :
    List (String × (String × List (String × Value))) × Except PyErr Unit :=
  match env.find a.identifier with
  | none => ([], Except.error PyErr.notFound)
  | some nid =>
    let body := SetNetwork.body a
    if body = [] then
      ([], Except.error (PyErr.commandError "Nothing specified to be set"))
    else
      ([(nid, ("network", body))],
        if env.update_network nid ("network", body) then Except.ok ()
        else Except.error PyErr.clientError)

/-- ShowNetwork.take_action (network.py lines 253-261): resolve, fetch,
index the response with the network key, apply filters, return the
sorted items; nothing is stripped from the record. -/
def ShowNetwork.take_action (env : NetworkClient) (identifier : String) :
    Except PyErr (List String × List Value) :=
  match env.find identifier with
  | none => Except.error PyErr.notFound
  | some nid =>
    match alookup "network" (env.show_network nid) with
    | none => Except.error PyErr.keyError
    | some data => Except.ok (zipStar (sortPairs (filters data)))

/-- Parsed arguments of ListNetwork (network.py lines 126-143): the
external, dhcp and long flags of its own parser, plus the column
selection option contributed by the Lister base class (default: the
empty list). -/
structure ListNetworkArgs where
  external : Bool
  dhcp : Option String
  long : Bool
  columns : List String
deriving DecidableEq, Repr

/-- Which list call ListNetwork issues: the dhcp-agent listing with its
dhcp_agent filter, or the plain network listing with its filter dict. -/
inductive NetListCall where
  | onDhcpAgent (dhcp_agent : String)
  | networks (filter : List (String × Value))
deriving DecidableEq, Repr

/-- Dispatch of the chosen list call to the corresponding client
method. -/
def NetworkClient.runList (env : NetworkClient) :
    NetListCall → List (String × List (List (String × Value)))
  | NetListCall.onDhcpAgent d => env.list_networks_on_dhcp_agent d
  | NetListCall.networks f => env.list_networks f

/-- Modelled from the spec: the external collaborator
get_dict_properties (sections 4.4 and 6): one row value per requested
column, the record's value when the key is present (with the subnets
formatter flattening the list), and an empty placeholder for a missing
key. -/
def get_dict_properties (s : List (String × Value)) (cols : List String) :
    List Value :=
  cols.map (fun c =>
    match alookup c s with
    | none => Value.str ""
    | some v =>
      if c = "subnets" then
        match v with
        | Value.strlist xs => Value.str (format_list xs)
        | w => w
      else v)

/-- ListNetwork.take_action (network.py lines 145-169).  With a truthy
dhcp argument the dhcp-agent listing is called with only the dhcp_agent
filter; otherwise list_networks is called, with the external filter when
--external was given.  The response is indexed with the collection key
(KeyError when absent).  Columns: sorted keys of the first record when
there is data, else the empty list; only when neither --long nor a
truthy dhcp is present are they cut down to the requested columns
(default id, name, subnets) that actually occur.  Returns the call
issued, the columns, and the formatted rows. -/
def ListNetwork.take_action (env : NetworkClient) (a : ListNetworkArgs) :
    Except PyErr (NetListCall × List String × List (List Value)) :=
  let call := if truthyStr a.dhcp then NetListCall.onDhcpAgent (a.dhcp.getD "")
    else if a.external then NetListCall.networks [("router:external", Value.bool true)]
    else NetListCall.networks []
  let resources := if truthyStr a.dhcp then "networks_on_dhcp_agent" else "networks"
  match alookup resources (env.runList call) with
  | none => Except.error PyErr.keyError
  | some data =>
    let keyCols := match data with
      | [] => []
      | s :: _ => sortStrs (s.map Prod.fst)
    let list_columns := if a.columns = [] then ["id", "name", "subnets"] else a.columns
    let outCols := if !a.long && !(truthyStr a.dhcp) then
        list_columns.filter (fun x => keyCols.contains x)
      else keyCols
    Except.ok (call, outCols, data.map (fun s => get_dict_properties s outCols))

/-- A volume as the backup listing uses it: its ID and display name. -/
structure VolumeRec where
  vid : String
  vname : String
deriving DecidableEq, Repr

/-- A backup object as returned by the backups listing: the attributes
the backup list columns read. -/
structure BackupRec where
  bid : String
  bname : String
  bdescription : String
  bstatus : String
  bsize : String
  bavailability_zone : String
  bvolume_id : String
  bcontainer : String
deriving DecidableEq, Repr

/-- A backup object returned by the resolver: its ID and its _info
record. -/
structure BackupObj where
  rid : String
  info : List (String × Value)
deriving DecidableEq, Repr

/-- The volume client as the backup commands see it.  find_volume,
find_snapshot and find_backup are the external utils.find_resource
resolver, modelled from the spec (section 4.2): None is its NotFound
failure.  backups_create returns the _info record of the created backup,
backups_delete tells whether the delete call succeeded, volumes_list is
the volume listing (which may fail with an arbitrary exception),
backups_list the backup listing. -/
structure VolumeClient where
  find_volume : String → Option String
  find_snapshot : String → Option String
  find_backup : String → Option BackupObj
  backups_create : String → List (String × Value) → List (String × Value)
  backups_delete : String → Bool → Bool
  volumes_list : Except Unit (List VolumeRec)
  backups_list : List BackupRec

/-- Parsed arguments of CreateBackup (backup.py lines 34-73): the
positional volume, four optional string flags (None when not given) and
two store_true flags (default False). -/
structure CreateBackupArgs where
  volume : String
  name : Option String
  description : Option String
  container : Option String
  snapshot : Option String
  force : Bool
  incremental : Bool
deriving DecidableEq, Repr

/-- An optional string flag as a python value: None when unset. -/
def optStr : Option String → Value
  | none => Value.null
  | some s => Value.str s

/-- The keyword arguments CreateBackup.take_action passes to
backups.create (backup.py lines 83-91): every parameter is always
passed, whether or not the corresponding flag was given. -/
def CreateBackup.kwargs (a : CreateBackupArgs) (snapshot_id : Option String) :
    List (String × Value) :=
  [("container", optStr a.container),
   ("name", optStr a.name),
   ("description", optStr a.description),
   ("force", Value.bool a.force),
   ("incremental", Value.bool a.incremental),
   ("snapshot_id", optStr snapshot_id)]

/-- The snapshot resolution step of CreateBackup.take_action (backup.py
lines 79-82): snapshot_id stays None unless the snapshot argument is
truthy, in which case it is resolved (NotFound propagates). -/
def CreateBackup.resolveSnapshotId (env : VolumeClient) (a : CreateBackupArgs) :
    Except PyErr (Option String) :=
  if truthyStr a.snapshot then
    match env.find_snapshot (a.snapshot.getD "") with
    | none => Except.error PyErr.notFound
    | some sid => Except.ok (some sid)
  else Except.ok none

/-- CreateBackup.take_action (backup.py lines 75-93): resolve the
volume, resolve the snapshot when given, create the backup passing all
keyword arguments, pop links from the returned record and return its
sorted items. -/
def CreateBackup.take_action (env : VolumeClient) (a : CreateBackupArgs) :
    Except PyErr (List String × List Value) :=
  match env.find_volume a.volume with
  | none => Except.error PyErr.notFound
  | some volume_id =>
    match CreateBackup.resolveSnapshotId env a with
    | Except.error e => Except.error e
    | Except.ok snapshot_id =>
      let info := env.backups_create volume_id (CreateBackup.kwargs a snapshot_id)
      Except.ok (zipStar (sortPairs (aerase "links" info)))

/-- One loop iteration of DeleteBackup.take_action (backup.py lines
119-128): resolve the item and attempt the delete, appending the
attempts to the trace; any failure is caught and counted. -/
def DeleteBackup.step (env : VolumeClient) (force : Bool)
    (acc : List Ev × Nat) (i : String) : List Ev × Nat :=
  match env.find_backup i with
  | none => (acc.1 ++ [Ev.resolveAttempt i], acc.2 + 1)
  | some b =>
    if env.backups_delete b.rid force then
      (acc.1 ++ [Ev.resolveAttempt i, Ev.deleteAttempt b.rid], acc.2)
    else
      (acc.1 ++ [Ev.resolveAttempt i, Ev.deleteAttempt b.rid], acc.2 + 1)

/-- The aggregate failure message of DeleteBackup (backup.py lines
132-133). -/
def deleteBackupMsg (result total : Nat) : String :=
  toString result ++ " of " ++ toString total ++ " backups failed to delete."

/-- DeleteBackup.take_action (backup.py lines 115-134): loop over all
identifiers counting per-item failures, then raise one aggregate
CommandError when any item failed.  The first component is the trace of
attempts performed. -/
def DeleteBackup.take_action (env : VolumeClient) (backups : List String)
    (force : Bool) : List Ev × Except PyErr Unit :=
  let r := backups.foldl (DeleteBackup.step env force) ([], 0)
  if r.2 > 0 then
    (r.1, Except.error (PyErr.commandError (deleteBackupMsg r.2 backups.length)))
  else
    (r.1, Except.ok ())

/-- Whether one DeleteBackup item fails: its resolution fails or its
delete call fails. -/
def backupItemFails (env : VolumeClient) (force : Bool) (i : String) : Bool :=
  match env.find_backup i with
  | none => true
  | some b => !(env.backups_delete b.rid force)

/-- The attempts DeleteBackup performs for one item. -/
def backupItemEvents (env : VolumeClient) (i : String) : List Ev :=
  match env.find_backup i with
  | none => [Ev.resolveAttempt i]
  | some b => [Ev.resolveAttempt i, Ev.deleteAttempt b.rid]

/-- The columns ListBackup reads (backup.py lines 164-171): the fixed
default set, extended by three more fields with --long. -/
def ListBackup.columns (long : Bool) : List String :=
  if long then
    ["ID", "Name", "Description", "Status", "Size",
     "Availability Zone", "Volume ID", "Container"]
  else
    ["ID", "Name", "Description", "Status", "Size"]

/-- The column headers ListBackup displays: with --long, a copy of the
columns with entry 6 relabeled Volume; otherwise the columns
themselves. -/
def ListBackup.column_headers (long : Bool) : List String :=
  if long then (ListBackup.columns true).set 6 "Volume" else ListBackup.columns false

/-- The volume cache (backup.py lines 173-180): keyed by volume ID; when
the volume listing fails the exception is swallowed and the cache stays
empty. -/
def buildVolumeCache : Except Unit (List VolumeRec) → List (String × VolumeRec)
  | Except.error _ => []
  | Except.ok vs => vs.foldl (fun c v => aset v.vid v c) []

/-- ListBackup._format_volume_id (backup.py lines 152-162): the cached
volume's name when the ID is in the cache, the raw ID otherwise. -/
def ListBackup.format_volume_id (cache : List (String × VolumeRec))
    (volume_id : String) : String :=
  match alookup volume_id cache with
  | some v => v.vname
  | none => volume_id

/-- The attribute of a backup object behind each column name. -/
def backupField (s : BackupRec) : String → String
  | "ID" => s.bid
  | "Name" => s.bname
  | "Description" => s.bdescription
  | "Status" => s.bstatus
  | "Size" => s.bsize
  | "Availability Zone" => s.bavailability_zone
  | "Volume ID" => s.bvolume_id
  | "Container" => s.bcontainer
  | _ => ""

/-- Modelled from the spec: the external collaborator
get_item_properties (sections 4.4 and 6): one value per requested
column, positionally aligned, with the per-column formatter (here the
Volume ID formatter) applied to the attribute value. -/
def get_item_properties (cache : List (String × VolumeRec)) (s : BackupRec)
    (cols : List String) : List String :=
  cols.map (fun c =>
    if c = "Volume ID" then ListBackup.format_volume_id cache (backupField s c)
    else backupField s c)

/-- ListBackup.take_action (backup.py lines 150-188): choose columns and
headers from --long, build the volume cache (swallowing a volume listing
failure), list the backups and format one row per backup. -/
def ListBackup.take_action (env : VolumeClient) (long : Bool) :
    List String × List (List String) :=
  let columns := ListBackup.columns long
  let column_headers := ListBackup.column_headers long
  let volume_cache := buildVolumeCache env.volumes_list
  let data := env.backups_list
  (column_headers, data.map (fun s => get_item_properties volume_cache s columns))

/-- ShowBackup.take_action (backup.py lines 228-233): resolve the
backup, pop links from its record, return the sorted items. -/
def ShowBackup.take_action (env : VolumeClient) (backup : String) :
    Except PyErr (List String × List Value) :=
  match env.find_backup backup with
  | none => Except.error PyErr.notFound
  | some b => Except.ok (zipStar (sortPairs (aerase "links" b.info)))

/-- What the user did with one mutually exclusive flag pair. -/
inductive ToggleInput where
  | neither
  | enableFlag
  | disableFlag
deriving DecidableEq, Repr

/-- Semantics of a store_true / store_false mutually exclusive pair
sharing one destination with the given default: the default when neither
flag is given, true for the enabling flag, false for the disabling
one. -/
def parseTogglePair (dflt : Option Bool) : ToggleInput → Option Bool
  | ToggleInput.neither => dflt
  | ToggleInput.enableFlag => some true
  | ToggleInput.disableFlag => some false

/-- The admin_state destination of CreateNetwork (network.py lines
46-59): its --enable action declares default=True, so the parsed value
when neither flag is given is True rather than None. -/
def CreateNetwork.parse_admin_state : ToggleInput → Option Bool :=
  parseTogglePair (some true)

/-- The shared destination of CreateNetwork (network.py lines 60-73):
default None. -/
def CreateNetwork.parse_shared : ToggleInput → Option Bool :=
  parseTogglePair none

/-- The admin_state destination of SetNetwork (network.py lines
189-202): default None. -/
def SetNetwork.parse_admin_state : ToggleInput → Option Bool :=
  parseTogglePair none

/-- The shared destination of SetNetwork (network.py lines 203-216):
default None. -/
def SetNetwork.parse_shared : ToggleInput → Option Bool :=
  parseTogglePair none

/-- The tri-state value the spec describes for a toggle pair (section
4.1): None when the user supplies neither flag, true for the enabling
flag, false for the disabling flag.  Stated from the spec's words, to be
compared with the parsed values above. -/
def triStateSpec : ToggleInput → Option Bool
  | ToggleInput.neither => none
  | ToggleInput.enableFlag => some true
  | ToggleInput.disableFlag => some false

/-- A network client whose every call succeeds and returns an empty
collection, the base of the concrete clients used in the closed
theorems below. -/
def idleNetClient : NetworkClient where
  find := fun s => some s
  create_network := fun _ => []
  delete_network := fun _ => true
  update_network := fun _ _ => true
  show_network := fun _ => []
  list_networks := fun _ => [("networks", [])]
  list_networks_on_dhcp_agent := fun _ => [("networks_on_dhcp_agent", [])]

/-- A volume client whose every call succeeds and returns an empty
record, the base of the concrete clients used in the closed theorems
below. -/
def idleVolClient : VolumeClient where
  find_volume := fun s => some s
  find_snapshot := fun s => some s
  find_backup := fun s => some { rid := s, info := [] }
  backups_create := fun _ _ => []
  backups_delete := fun _ _ => true
  volumes_list := Except.ok []
  backups_list := []

/-- A network client whose resolver fails on the identifier badnet and
succeeds elsewhere. -/
def netC1 : NetworkClient :=
  { idleNetClient with find := fun s => if s = "badnet" then none else some s }

/-- A volume client whose backup resolver fails on the identifier badbak
and succeeds elsewhere. -/
def volC1 : VolumeClient :=
  { idleVolClient with find_backup := fun s =>
      if s = "badbak" then none else some { rid := s, info := [] } }

/-- A CreateBackup invocation in which no optional flag was given. -/
def cbArgsC2 : CreateBackupArgs :=
  { volume := "vol1", name := none, description := none, container := none,
    snapshot := none, force := false, incremental := false }

/-- A network client whose resolver always fails. -/
def netC3 : NetworkClient := { idleNetClient with find := fun _ => none }

/-- A backup record carrying a links key. -/
def volC4Info : List (String × Value) :=
  [("links", Value.str "L"), ("b", Value.str "2"), ("a", Value.str "1")]

/-- A volume client whose backup resolver returns a record with a links
key. -/
def volC4 : VolumeClient :=
  { idleVolClient with find_backup := fun s => some { rid := s, info := volC4Info } }

/-- A network record carrying a links key. -/
def netC4Data : List (String × Value) :=
  [("links", Value.str "L"), ("name", Value.str "x")]

/-- A network client whose show call returns a record with a links
key. -/
def netC4 : NetworkClient :=
  { idleNetClient with show_network := fun _ => [("network", netC4Data)] }

/-- A network client whose listing returns one record with only an id
key. -/
def netC5a : NetworkClient :=
  { idleNetClient with list_networks := fun _ =>
      [("networks", [[("id", Value.str "1")]])] }

/-- A network client whose listing returns one record with only a name
key. -/
def netC5b : NetworkClient :=
  { idleNetClient with list_networks := fun _ =>
      [("networks", [[("name", Value.str "n")]])] }

/-- A network client whose create call responds without a network
key. -/
def netC8 : NetworkClient := { idleNetClient with create_network := fun _ => [] }

/-- A network client whose create call responds with an empty record
under the network key. -/
def netC8w : NetworkClient :=
  { idleNetClient with create_network := fun _ => [("network", [])] }

/-- A network client whose dhcp-agent listing returns one record. -/
def netC9w : NetworkClient :=
  { idleNetClient with list_networks_on_dhcp_agent := fun _ =>
      [("networks_on_dhcp_agent", [[("id", Value.str "1"), ("zz", Value.str "2")]])] }

/-- A volume cache holding the single volume v1 named myvol. -/
def cacheC10 : List (String × VolumeRec) :=
  [("v1", { vid := "v1", vname := "myvol" })]

/-- A backup whose volume is in cacheC10. -/
def bakC10a : BackupRec :=
  { bid := "b1", bname := "bk", bdescription := "", bstatus := "available",
    bsize := "1", bavailability_zone := "z", bvolume_id := "v1", bcontainer := "" }

/-- A backup whose volume is not in cacheC10. -/
def bakC10b : BackupRec :=
  { bid := "b2", bname := "bk2", bdescription := "", bstatus := "available",
    bsize := "1", bavailability_zone := "z", bvolume_id := "v2", bcontainer := "" }

/-- The keys side of zip(*pairs) is the key list of the pairs. -/
theorem zipStar_fst (ps : List (String × Value)) :
    (zipStar ps).1 = ps.map Prod.fst := rfl

/-- The DeleteBackup loop, run from any accumulator, appends the attempt
events of every item in order and adds one failure per failing item. -/
theorem deleteBackup_foldl (env : VolumeClient) (force : Bool) (l : List String)
    (tr : List Ev) (n : Nat) :
    l.foldl (DeleteBackup.step env force) (tr, n) =
      (tr ++ (l.map (backupItemEvents env)).join,
       n + l.countP (backupItemFails env force)) := by
  induction l generalizing tr n with
  | nil => simp
  | cons i rest ih =>
    cases h : env.find_backup i with
    | none =>
      simp [List.foldl_cons, DeleteBackup.step, h, backupItemEvents, backupItemFails,
        ih, List.countP_cons]
      omega
    | some b =>
      cases hd : env.backups_delete b.rid force <;>
        simp [List.foldl_cons, DeleteBackup.step, h, hd, backupItemEvents,
          backupItemFails, ih, List.countP_cons] <;> omega

/-- Each DeleteBackup item contributes exactly one resolution attempt. -/
theorem countResolve_backupItemEvents (env : VolumeClient) (i : String) :
    (backupItemEvents env i).countP isResolveEv = 1 := by
  cases h : env.find_backup i <;>
    simp [backupItemEvents, h, isResolveEv, List.countP_cons]

/-- Joining the per-item attempt blocks yields one resolution attempt per
identifier. -/
theorem countResolve_join (env : VolumeClient) (bs : List String) :
    ((bs.map (backupItemEvents env)).join).countP isResolveEv = bs.length := by
  induction bs with
  | nil => simp
  | cons i rest ih =>
    simp [List.countP_append, countResolve_backupItemEvents, ih]
    omega

/-- Membership in an insertion step of the pair sort. -/
theorem mem_insertPair (q p : String × Value) (l : List (String × Value)) :
    q ∈ insertPair p l ↔ q = p ∨ q ∈ l := by
  induction l with
  | nil => simp [insertPair]
  | cons r rest ih =>
    by_cases h : strLeb p.1 r.1 = true <;> simp [insertPair, h, ih] <;> tauto

/-- Sorting the items of a record does not change which pairs occur. -/
theorem mem_sortPairs (q : String × Value) (l : List (String × Value)) :
    q ∈ sortPairs l ↔ q ∈ l := by
  induction l with
  | nil => simp [sortPairs]
  | cons p rest ih => simp [sortPairs, mem_insertPair, ih]

/-- Sorting the items of a record does not change which keys occur. -/
theorem mem_keys_sortPairs (k : String) (l : List (String × Value)) :
    k ∈ (sortPairs l).map Prod.fst ↔ k ∈ l.map Prod.fst := by
  simp only [List.mem_map]
  constructor
  · rintro ⟨q, hq, hk⟩
    exact ⟨q, (mem_sortPairs q l).mp hq, hk⟩
  · rintro ⟨q, hq, hk⟩
    exact ⟨q, (mem_sortPairs q l).mpr hq, hk⟩

/-- Popping a key from a record with distinct keys leaves no occurrence
of that key. -/
theorem keys_aerase_not_mem {α : Type} (k : String) (l : List (String × α))
    (h : (l.map Prod.fst).Nodup) : k ∉ (aerase k l).map Prod.fst := by
  induction l with
  | nil => simp [aerase]
  | cons p rest ih =>
    simp only [List.map_cons, List.nodup_cons] at h
    by_cases hp : p.1 = k
    · simpa [aerase, hp] using fun hmem => h.1 (hp ▸ hmem)
    · simp only [aerase, hp, if_false, List.map_cons, List.mem_cons]
      rintro (hk | hk)
      · exact hp hk.symm
      · exact ih h.2 hk

/-- Assigning to a key that is present does not change the key list. -/
theorem keys_aset_of_lookup {α : Type} (k : String) (v w : α)
    (l : List (String × α)) (h : alookup k l = some w) :
    (aset k v l).map Prod.fst = l.map Prod.fst := by
  induction l with
  | nil => simp [alookup] at h
  | cons p rest ih =>
    by_cases hp : p.1 = k
    · simp [aset, hp]
    · simp only [alookup, hp, if_false] at h
      simp [aset, hp, ih h]

/-- The filters helper reshapes the subnets value but never changes the
key list of the record. -/
theorem filters_keys (d : List (String × Value)) :
    (filters d).map Prod.fst = d.map Prod.fst := by
  cases h : alookup "subnets" d with
  | none => simp [filters, h]
  | some v =>
    cases v with
    | str s => simp [filters, h]
    | bool b => simp [filters, h]
    | null => simp [filters, h]
    | strlist xs =>
      simp only [filters, h]
      exact keys_aset_of_lookup "subnets" _ _ d h

/-- The trace DeleteNetwork produces: the complete resolve-then-delete
blocks of the successful prefix, in the order supplied, followed by the
attempts of the first failing item when there is one. -/
theorem deleteNetwork_trace (env : NetworkClient) (ns : List String) :
    (DeleteNetwork.take_action env ns).1 =
      ((ns.takeWhile (netItemOk env)).map (netItemEvents env)).join ++
        (match ns.dropWhile (netItemOk env) with
         | [] => []
         | m :: _ => netItemEvents env m) := by
  induction ns with
  | nil => simp [DeleteNetwork.take_action]
  | cons n rest ih =>
    cases h : env.find n with
    | none =>
      simp [DeleteNetwork.take_action, h, List.takeWhile_cons, List.dropWhile_cons,
        netItemOk, netItemEvents]
    | some nid =>
      cases hd : env.delete_network nid with
      | false =>
        simp [DeleteNetwork.take_action, h, hd, List.takeWhile_cons,
          List.dropWhile_cons, netItemOk, netItemEvents]
      | true =>
        simp [DeleteNetwork.take_action, h, hd, List.takeWhile_cons,
          List.dropWhile_cons, netItemOk, netItemEvents, ih]

/-- DeleteNetwork either succeeds or propagates the failing item's own
error: a NotFound from the resolver or the delete call's exception; in
particular it never raises a CommandError. -/
theorem deleteNetwork_result (env : NetworkClient) (ns : List String) :
    (DeleteNetwork.take_action env ns).2 = Except.ok () ∨
    (DeleteNetwork.take_action env ns).2 = Except.error PyErr.notFound ∨
    (DeleteNetwork.take_action env ns).2 = Except.error PyErr.clientError := by
  induction ns with
  | nil => simp [DeleteNetwork.take_action]
  | cons n rest ih =>
    cases h : env.find n with
    | none => simp [DeleteNetwork.take_action, h]
    | some nid =>
      cases hd : env.delete_network nid with
      | false => simp [DeleteNetwork.take_action, h, hd]
      | true => simpa [DeleteNetwork.take_action, h, hd] using ih

/-- Closed form of DeleteBackup.take_action: its trace is the join of
the per-item attempt blocks, and its outcome is the aggregate
CommandError exactly when some item failed. -/
theorem deleteBackup_take_action_eq (env : VolumeClient) (force : Bool)
    (bs : List String) :
    DeleteBackup.take_action env bs force =
      ((bs.map (backupItemEvents env)).join,
       if bs.countP (backupItemFails env force) > 0 then
         Except.error (PyErr.commandError
           (deleteBackupMsg (bs.countP (backupItemFails env force)) bs.length))
       else Except.ok ()) := by
  simp only [DeleteBackup.take_action]
  rw [deleteBackup_foldl env force bs [] 0]
  simp only [List.nil_append, Nat.zero_add]
  by_cases hc : bs.countP (backupItemFails env force) > 0
  · rw [if_pos hc, if_pos hc]
  · rw [if_neg hc, if_neg hc]

/-- ListNetwork with a truthy dhcp argument: only the dhcp-agent listing
is consulted, with the dhcp_agent filter alone, and the columns are the
sorted keys of the first record (empty when there is no data),
regardless of the other flags. -/
theorem listNetwork_dhcp (env : NetworkClient) (a : ListNetworkArgs)
    (h : truthyStr a.dhcp = true) :
    ListNetwork.take_action env a =
      match alookup "networks_on_dhcp_agent"
          (env.list_networks_on_dhcp_agent (a.dhcp.getD "")) with
      | none => Except.error PyErr.keyError
      | some data =>
        Except.ok (NetListCall.onDhcpAgent (a.dhcp.getD ""),
          (match data with
           | [] => []
           | s :: _ => sortStrs (s.map Prod.fst)),
          data.map (fun s => get_dict_properties s
            (match data with
             | [] => []
             | s1 :: _ => sortStrs (s1.map Prod.fst)))) := by
  simp [ListNetwork.take_action, h, NetworkClient.runList]

/-- Claim C1, as stated, is false: DeleteNetwork has no per-item error
handling.  On the invocation delete badnet net2, where badnet fails
resolution (so N = 2 and F = 1 > 0), only one of the two
resolve-then-delete attempts is performed and the raised error is the
resolver's NotFound, not a CommandError carrying F and N. -/
theorem C1_counterexample :
    (DeleteNetwork.take_action netC1 ["badnet", "net2"]).1 =
      [Ev.resolveAttempt "badnet"] ∧
    (DeleteNetwork.take_action netC1 ["badnet", "net2"]).2 =
      Except.error PyErr.notFound := by
  constructor <;> rfl

/-- Claim C1 (amended): DeleteBackup performs all N resolve-then-delete
attempts in order and raises CommandError exactly when F > 0, with a
message containing both F and N; DeleteNetwork, by contrast, either
succeeds or propagates the first failing item's own error (NotFound or
the delete call's exception) and never raises an aggregate
CommandError. -/
theorem C1_delete_aggregate :
    (∀ (env : VolumeClient) (force : Bool) (bs : List String),
      (DeleteBackup.take_action env bs force).1 =
        (bs.map (backupItemEvents env)).join ∧
      ((DeleteBackup.take_action env bs force).1).countP isResolveEv = bs.length ∧
      ((DeleteBackup.take_action env bs force).2 = Except.ok () ↔
        bs.countP (backupItemFails env force) = 0) ∧
      (0 < bs.countP (backupItemFails env force) →
        (DeleteBackup.take_action env bs force).2 =
          Except.error (PyErr.commandError
            (deleteBackupMsg (bs.countP (backupItemFails env force)) bs.length))) ∧
      deleteBackupMsg (bs.countP (backupItemFails env force)) bs.length =
        toString (bs.countP (backupItemFails env force)) ++ " of " ++
          toString bs.length ++ " backups failed to delete.")
  ∧ (∀ (env : NetworkClient) (ns : List String),
      (DeleteNetwork.take_action env ns).2 = Except.ok () ∨
      (DeleteNetwork.take_action env ns).2 = Except.error PyErr.notFound ∨
      (DeleteNetwork.take_action env ns).2 = Except.error PyErr.clientError) := by
  constructor
  · intro env force bs
    rw [deleteBackup_take_action_eq]
    refine ⟨rfl, countResolve_join env bs, ?_, ?_, rfl⟩
    · by_cases hc : bs.countP (backupItemFails env force) > 0
      · rw [if_pos hc]
        constructor
        · intro h; simp at h
        · intro h; omega
      · rw [if_neg hc]
        constructor
        · intro _; omega
        · intro _; rfl
    · intro h
      rw [if_pos h]
  · exact deleteNetwork_result

/-- Witness for C1_delete_aggregate: deleting badbak and b2 against
volC1 has one failure out of two items and raises the aggregate message;
DeleteNetwork on one resolvable item does not produce the boom
CommandError. -/
theorem C1_delete_aggregate_witness :
    0 < (["badbak", "b2"].countP (backupItemFails volC1 false)) ∧
    (DeleteBackup.take_action volC1 ["badbak", "b2"] false).2 =
      Except.error (PyErr.commandError "1 of 2 backups failed to delete.") ∧
    ((DeleteNetwork.take_action idleNetClient ["n1"]).2 = Except.ok () ∨
      (DeleteNetwork.take_action idleNetClient ["n1"]).2 = Except.error PyErr.notFound ∨
      (DeleteNetwork.take_action idleNetClient ["n1"]).2 = Except.error PyErr.clientError) :=
  ⟨by decide,
   (C1_delete_aggregate.1 volC1 false ["badbak", "b2"]).2.2.2.1 (by decide),
   C1_delete_aggregate.2 idleNetClient ["n1"]⟩

/-- Claim C2, as stated, is false for CreateBackup: every keyword
argument is passed to backups.create on every invocation, so on an
invocation with no optional flag given the body still carries the
container key (and all the other optional keys). -/
theorem C2_counterexample :
    cbArgsC2.container = none ∧
    "container" ∈ (CreateBackup.kwargs cbArgsC2 none).map Prod.fst := by
  constructor
  · rfl
  · decide

/-- Claim C2 (amended): CreateNetwork builds its body by set-if-present —
always the required name and admin_state_up keys, and the shared key
exactly when the flag pair was used; CreateBackup instead always passes
all six keyword parameters, whether or not the corresponding flags were
set. -/
theorem C2_create_body_keys :
    (∀ a : CreateNetworkArgs,
      (CreateNetwork.get_body a).1 = "network" ∧
      (CreateNetwork.get_body a).2.map Prod.fst =
        ["name", "admin_state_up"] ++
          (match a.shared with
           | some _ => ["shared"]
           | none => []))
  ∧ (∀ (a : CreateBackupArgs) (sid : Option String),
      (CreateBackup.kwargs a sid).map Prod.fst =
        ["container", "name", "description", "force", "incremental",
         "snapshot_id"]) := by
  constructor
  · intro a
    rcases a with ⟨n, st, sh⟩
    cases sh <;> simp [CreateNetwork.get_body]
  · intro a sid
    simp [CreateBackup.kwargs]

/-- Claim C3, as stated, is false on an identifier that does not
resolve: the resolver runs before the empty-body check, so a Set
invocation with no fields on an unresolvable network raises the
resolver's NotFound error, not the CommandError the claim requires. -/
theorem C3_counterexample :
    SetNetwork.take_action netC3
        { identifier := "net1", name := none, admin_state := none, shared := none } =
      ([], Except.error PyErr.notFound) := rfl

/-- Claim C3 (amended): provided the identifier resolves, a Set
invocation with no explicitly-set field raises CommandError "Nothing
specified to be set" and issues no update call, while an invocation with
at least one field issues exactly one update call whose body holds
exactly the explicitly-set fields. -/
theorem C3_set_empty_body (env : NetworkClient) (a : SetNetworkArgs) (nid : String)
    (hfind : env.find a.identifier = some nid) :
    (SetNetwork.body a = [] ↔
      a.name = none ∧ a.admin_state = none ∧ a.shared = none) ∧
    (SetNetwork.body a = [] →
      SetNetwork.take_action env a =
        ([], Except.error (PyErr.commandError "Nothing specified to be set"))) ∧
    (SetNetwork.body a ≠ [] →
      (SetNetwork.take_action env a).1 = [(nid, ("network", SetNetwork.body a))]) ∧
    (SetNetwork.body a).map Prod.fst =
      (match a.name with
       | some _ => ["name"]
       | none => []) ++
      (match a.admin_state with
       | some _ => ["admin_state_up"]
       | none => []) ++
      (match a.shared with
       | some _ => ["shared"]
       | none => []) := by
  refine ⟨?_, ?_, ?_, ?_⟩
  · rcases a with ⟨i, n, st, sh⟩
    cases n <;> cases st <;> cases sh <;> simp [SetNetwork.body]
  · intro hb
    simp [SetNetwork.take_action, hfind, hb]
  · intro hb
    simp [SetNetwork.take_action, hfind, hb]
  · rcases a with ⟨i, n, st, sh⟩
    cases n <;> cases st <;> cases sh <;> simp [SetNetwork.body]

/-- Witness for C3_set_empty_body: with the always-resolving client, the
no-field invocation raises the CommandError and issues no call, and a
name-only invocation issues exactly one update call with only the name
key. -/
theorem C3_set_empty_body_witness :
    SetNetwork.take_action idleNetClient
        { identifier := "net1", name := none, admin_state := none, shared := none } =
      ([], Except.error (PyErr.commandError "Nothing specified to be set")) ∧
    (SetNetwork.take_action idleNetClient
        { identifier := "net1", name := some "n2", admin_state := none, shared := none }).1 =
      [("net1", ("network", [("name", Value.str "n2")]))] :=
  ⟨(C3_set_empty_body idleNetClient
      { identifier := "net1", name := none, admin_state := none, shared := none }
      "net1" rfl).2.1 rfl,
   (C3_set_empty_body idleNetClient
      { identifier := "net1", name := some "n2", admin_state := none, shared := none }
      "net1" rfl).2.2.1 (by decide)⟩

/-- Claim C4, as stated, is false for the network commands: filters only
reformats subnets and nothing strips links, so showing a network whose
record carries a links key returns output containing that key. -/
theorem C4_counterexample :
    ShowNetwork.take_action netC4 "n1" =
      Except.ok (["links", "name"], [Value.str "L", Value.str "x"]) ∧
    "links" ∈ ["links", "name"] := by
  constructor
  · rfl
  · decide

/-- Claim C4 (amended): ShowBackup and CreateBackup pop the links key
and return the sorted (key, value) pairs, so their output never contains
links; ShowNetwork and CreateNetwork return the sorted pairs with only
the subnets value reformatted — links is not stripped and appears in
their output whenever the fetched record contains it. -/
theorem C4_show_create_links :
    (∀ (env : VolumeClient) (ident : String) (b : BackupObj),
      env.find_backup ident = some b → (b.info.map Prod.fst).Nodup →
        ShowBackup.take_action env ident =
          Except.ok (zipStar (sortPairs (aerase "links" b.info))) ∧
        "links" ∉ (zipStar (sortPairs (aerase "links" b.info))).1)
  ∧ (∀ (env : VolumeClient) (a : CreateBackupArgs) (volume_id : String)
        (sid : Option String),
      env.find_volume a.volume = some volume_id →
      CreateBackup.resolveSnapshotId env a = Except.ok sid →
      ((env.backups_create volume_id (CreateBackup.kwargs a sid)).map Prod.fst).Nodup →
        CreateBackup.take_action env a =
          Except.ok (zipStar (sortPairs (aerase "links"
            (env.backups_create volume_id (CreateBackup.kwargs a sid))))) ∧
        "links" ∉ (zipStar (sortPairs (aerase "links"
            (env.backups_create volume_id (CreateBackup.kwargs a sid))))).1)
  ∧ (∀ (env : NetworkClient) (ident nid : String) (data : List (String × Value)),
      env.find ident = some nid →
      alookup "network" (env.show_network nid) = some data →
        ShowNetwork.take_action env ident =
          Except.ok (zipStar (sortPairs (filters data))) ∧
        ("links" ∈ data.map Prod.fst →
          "links" ∈ (zipStar (sortPairs (filters data))).1))
  ∧ (∀ (env : NetworkClient) (a : CreateNetworkArgs) (data : List (String × Value)),
      alookup "network" (env.create_network (CreateNetwork.get_body a)) = some data →
      data ≠ [] →
        CreateNetwork.take_action env a =
          Except.ok (zipStar (sortPairs (filters data))) ∧
        ("links" ∈ data.map Prod.fst →
          "links" ∈ (zipStar (sortPairs (filters data))).1)) := by
  refine ⟨?_, ?_, ?_, ?_⟩
  · intro env ident b hfind hnd
    constructor
    · simp [ShowBackup.take_action, hfind]
    · rw [zipStar_fst]
      intro hmem
      exact keys_aerase_not_mem "links" b.info hnd
        ((mem_keys_sortPairs "links" (aerase "links" b.info)).mp hmem)
  · intro env a volume_id sid hv hs hnd
    constructor
    · simp [CreateBackup.take_action, hv, hs]
    · rw [zipStar_fst]
      intro hmem
      exact keys_aerase_not_mem "links" _ hnd
        ((mem_keys_sortPairs "links" _).mp hmem)
  · intro env ident nid data hf hdl
    constructor
    · simp [ShowNetwork.take_action, hf, hdl]
    · intro hm
      rw [zipStar_fst]
      exact (mem_keys_sortPairs "links" (filters data)).mpr
        (by rw [filters_keys]; exact hm)
  · intro env a data hdl hne
    constructor
    · simp [CreateNetwork.take_action, hdl, hne]
    · intro hm
      rw [zipStar_fst]
      exact (mem_keys_sortPairs "links" (filters data)).mpr
        (by rw [filters_keys]; exact hm)

/-- Witness for C4_show_create_links: the backup record with keys links,
b, a is shown without its links key, while the network record with keys
links, name keeps it. -/
theorem C4_show_create_links_witness :
    ShowBackup.take_action volC4 "b1" =
      Except.ok (["a", "b"], [Value.str "1", Value.str "2"]) ∧
    ShowNetwork.take_action netC4 "n1" =
      Except.ok (["links", "name"], [Value.str "L", Value.str "x"]) :=
  ⟨(C4_show_create_links.1 volC4 "b1" { rid := "b1", info := volC4Info }
      rfl (by decide)).1,
   (C4_show_create_links.2.2.1 netC4 "n1" "n1" netC4Data rfl rfl).1⟩

/-- Claim C5, as stated, is false for ListNetwork: with the same flags
(--long, nothing else) two different data sets give different column
lists, so the columns are not a function of the flags, and neither a
fixed superset of the default subset. -/
theorem C5_counterexample :
    ListNetwork.take_action netC5a
        { external := false, dhcp := none, long := true, columns := [] } =
      Except.ok (NetListCall.networks [], ["id"], [[Value.str "1"]]) ∧
    ListNetwork.take_action netC5b
        { external := false, dhcp := none, long := true, columns := [] } =
      Except.ok (NetListCall.networks [], ["name"], [[Value.str "n"]]) := by
  constructor <;> rfl

/-- Claim C5 (amended): ListBackup's columns are a deterministic
function of the --long flag — a fixed five-column subset without it, a
fixed eight-column superset (of which the subset is the first five) with
it, with the Volume ID header relabeled Volume; ListNetwork's columns
instead depend on the returned data as well (shown by the same --long
invocation yielding id or name columns depending on the records). -/
theorem C5_list_columns :
    ListBackup.columns false = ["ID", "Name", "Description", "Status", "Size"] ∧
    ListBackup.columns true =
      ["ID", "Name", "Description", "Status", "Size",
       "Availability Zone", "Volume ID", "Container"] ∧
    ListBackup.columns false = (ListBackup.columns true).take 5 ∧
    ListBackup.column_headers false = ListBackup.columns false ∧
    ListBackup.column_headers true =
      ["ID", "Name", "Description", "Status", "Size",
       "Availability Zone", "Volume", "Container"] ∧
    (ListBackup.columns true).get? 6 = some "Volume ID" ∧
    (ListBackup.column_headers true).get? 6 = some "Volume" ∧
    ListNetwork.take_action netC5a
        { external := false, dhcp := none, long := true, columns := [] } =
      Except.ok (NetListCall.networks [], ["id"], [[Value.str "1"]]) ∧
    ListNetwork.take_action netC5b
        { external := false, dhcp := none, long := true, columns := [] } =
      Except.ok (NetListCall.networks [], ["name"], [[Value.str "n"]]) := by
  refine ⟨rfl, rfl, rfl, rfl, rfl, rfl, rfl, rfl, rfl⟩

/-- Claim C6: both delete commands process the identifiers strictly
sequentially in the order supplied.  DeleteBackup's trace is exactly the
concatenation of the per-item resolve-then-delete blocks over all items;
DeleteNetwork's trace is the concatenation of the complete blocks of the
successful prefix followed by the attempts of the first failing item, so
in both commands every attempt for an item precedes every attempt for
any later item, and no work on an item starts before the previous item's
resolve and delete calls are over. -/
theorem C6_delete_sequential :
    (∀ (env : VolumeClient) (force : Bool) (bs : List String),
      (DeleteBackup.take_action env bs force).1 =
        (bs.map (backupItemEvents env)).join)
  ∧ (∀ (env : NetworkClient) (ns : List String),
      (DeleteNetwork.take_action env ns).1 =
        ((ns.takeWhile (netItemOk env)).map (netItemEvents env)).join ++
          (match ns.dropWhile (netItemOk env) with
           | [] => []
           | m :: _ => netItemEvents env m)) :=
  ⟨fun env force bs => by rw [deleteBackup_take_action_eq],
   fun env ns => deleteNetwork_trace env ns⟩

/-- Claim C7, as stated, is false for CreateNetwork's --enable /
--disable pair: its declared default is True, so when the user supplies
neither flag the parsed value is True, not the None the tri-state
contract requires. -/
theorem C7_counterexample :
    CreateNetwork.parse_admin_state ToggleInput.neither = some true ∧
    triStateSpec ToggleInput.neither = none :=
  ⟨rfl, rfl⟩

/-- Claim C7 (amended): the --share / --no-share pairs of CreateNetwork
and SetNetwork and the --enable / --disable pair of SetNetwork parse to
the spec's tri-state (None / true / false); CreateNetwork's --enable /
--disable pair instead defaults to True, collapsing "user said nothing"
into "enabled". -/
theorem C7_toggle_tristate :
    (∀ t, CreateNetwork.parse_shared t = triStateSpec t) ∧
    (∀ t, SetNetwork.parse_admin_state t = triStateSpec t) ∧
    (∀ t, SetNetwork.parse_shared t = triStateSpec t) ∧
    (∀ t, CreateNetwork.parse_admin_state t = some ((triStateSpec t).getD true)) := by
  refine ⟨fun t => ?_, fun t => ?_, fun t => ?_, fun t => ?_⟩ <;> cases t <;> rfl

/-- Claim C8, as stated, is false when the create response lacks the
network key entirely: indexing the response raises a KeyError and the
command fails instead of returning the ('', '') pair. -/
theorem C8_counterexample :
    CreateNetwork.take_action netC8
        { name := "n1", admin_state := true, shared := none } =
      Except.error PyErr.keyError := rfl

/-- Claim C8 (amended): when the create response carries the network key
with an empty record the command does not fail and returns exactly the
single pair of empty-string key and empty-string value; when the
response lacks the network key the command fails with a key lookup
error. -/
theorem C8_create_empty_record :
    (∀ (env : NetworkClient) (a : CreateNetworkArgs),
      alookup "network" (env.create_network (CreateNetwork.get_body a)) = some [] →
        CreateNetwork.take_action env a = Except.ok ([""], [Value.str ""]))
  ∧ (∀ (env : NetworkClient) (a : CreateNetworkArgs),
      alookup "network" (env.create_network (CreateNetwork.get_body a)) = none →
        CreateNetwork.take_action env a = Except.error PyErr.keyError) := by
  constructor
  · intro env a h
    simp [CreateNetwork.take_action, h, sortPairs, insertPair, zipStar]
  · intro env a h
    simp [CreateNetwork.take_action, h]

/-- Witness for C8_create_empty_record: a client answering with an empty
record under the network key yields the single empty pair. -/
theorem C8_create_empty_record_witness :
    CreateNetwork.take_action netC8w
        { name := "n1", admin_state := true, shared := none } =
      Except.ok ([""], [Value.str ""]) :=
  C8_create_empty_record.1 netC8w
    { name := "n1", admin_state := true, shared := none } rfl

/-- Claim C9, as stated, is false when --dhcp is supplied with an empty
agent ID: python truthiness sends the command down the plain listing
branch, so --external does shape the request. -/
theorem C9_counterexample :
    ListNetwork.take_action idleNetClient
        { external := true, dhcp := some "", long := false, columns := [] } =
      Except.ok (NetListCall.networks [("router:external", Value.bool true)],
        [], []) := rfl

/-- Claim C9 (amended): when --dhcp is supplied with a non-empty agent
ID, the --external, --long and column flags have no effect on the
request or the output: only the dhcp-agent listing is called, filtered
solely by dhcp_agent, and the columns are the sorted keys of the first
returned record (empty when no records come back). -/
theorem C9_list_dhcp (env : NetworkClient) (a : ListNetworkArgs) (d : String)
    (hdh : a.dhcp = some d) (hne : d ≠ "") :
    ListNetwork.take_action env a =
      ListNetwork.take_action env
        { a with external := false, long := false, columns := [] } ∧
    ListNetwork.take_action env a =
      (match alookup "networks_on_dhcp_agent"
          (env.list_networks_on_dhcp_agent d) with
       | none => Except.error PyErr.keyError
       | some data =>
         Except.ok (NetListCall.onDhcpAgent d,
           (match data with
            | [] => []
            | s :: _ => sortStrs (s.map Prod.fst)),
           data.map (fun s => get_dict_properties s
             (match data with
              | [] => []
              | s1 :: _ => sortStrs (s1.map Prod.fst))))) := by
  have ht : truthyStr a.dhcp = true := by
    rw [hdh]; simp [truthyStr, hne]
  constructor
  · rw [listNetwork_dhcp env a ht,
      listNetwork_dhcp env { a with external := false, long := false, columns := [] } ht]
  · rw [listNetwork_dhcp env a ht, hdh]
    simp only [Option.getD_some]

/-- Witness for C9_list_dhcp: listing with dhcp agent1 against netC9w,
with --external, --long and an explicit column selection all set,
returns the dhcp-agent call and the sorted keys of its record. -/
theorem C9_list_dhcp_witness :
    ListNetwork.take_action netC9w
        { external := true, dhcp := some "agent1", long := true, columns := ["id"] } =
      Except.ok (NetListCall.onDhcpAgent "agent1", ["id", "zz"],
        [[Value.str "1", Value.str "2"]]) :=
  (C9_list_dhcp netC9w
    { external := true, dhcp := some "agent1", long := true, columns := ["id"] }
    "agent1" rfl (by decide)).2

/-- Claim C10: a failure of the volume listing is swallowed — the
command behaves exactly as if the listing had returned no volumes — and
in the --long row the Volume entry (position 6) is the cached volume's
name when the backup's volume ID is in the cache and the raw volume ID
otherwise. -/
theorem C10_list_backup_cache :
    (∀ (env : VolumeClient) (long : Bool),
      ListBackup.take_action { env with volumes_list := Except.error () } long =
        ListBackup.take_action { env with volumes_list := Except.ok [] } long)
  ∧ (∀ (env : VolumeClient) (long : Bool),
      (ListBackup.take_action env long).2 =
        env.backups_list.map (fun s =>
          get_item_properties (buildVolumeCache env.volumes_list) s
            (ListBackup.columns long)))
  ∧ (∀ (cache : List (String × VolumeRec)) (s : BackupRec),
      (get_item_properties cache s (ListBackup.columns true)).get? 6 =
        some (ListBackup.format_volume_id cache s.bvolume_id))
  ∧ (∀ (cache : List (String × VolumeRec)) (s : BackupRec) (v : VolumeRec),
      alookup s.bvolume_id cache = some v →
        ListBackup.format_volume_id cache s.bvolume_id = v.vname)
  ∧ (∀ (cache : List (String × VolumeRec)) (s : BackupRec),
      alookup s.bvolume_id cache = none →
        ListBackup.format_volume_id cache s.bvolume_id = s.bvolume_id) := by
  refine ⟨fun env long => rfl, fun env long => rfl, fun cache s => rfl, ?_, ?_⟩
  · intro cache s v h
    simp [ListBackup.format_volume_id, h]
  · intro cache s h
    simp [ListBackup.format_volume_id, h]

/-- Witness for C10_list_backup_cache: with the cache holding v1 as
myvol, the backup on v1 formats to the name and the backup on v2 to the
raw ID. -/
theorem C10_list_backup_cache_witness :
    ListBackup.format_volume_id cacheC10 bakC10a.bvolume_id = "myvol" ∧
    ListBackup.format_volume_id cacheC10 bakC10b.bvolume_id = "v2" :=
  ⟨C10_list_backup_cache.2.2.2.1 cacheC10 bakC10a
      { vid := "v1", vname := "myvol" } rfl,
   C10_list_backup_cache.2.2.2.2 cacheC10 bakC10b rfl⟩

end OSC
